import Mathlib

/-!
A verification development for a small chat UI program (`src/main.py`):
a conversation orchestrator (`handle_chat`), a streaming chat client
(`stream_response`) and a transcription client (`transcribe_audio`).

The HTTP layer is modelled by passing the upstream response explicitly:
for the chat endpoint, a success flag (`response.raise_for_status`) and
the list of body chunks (`response.iter_lines`); for the transcription
endpoint, a status code and a typed optional-JSON body.  UI output
(progressive markdown updates, error notifications) is modelled as
explicit output lists.
-/

/-- Message roles appearing in the conversation history
(`{"role": "user", ...}` / `{"role": "assistant", ...}` in src/main.py). -/
inductive Role
  | user
  | assistant
deriving DecidableEq, Repr

/-- One conversation entry, the dictionary `{"role": ..., "content": ...}`
appended to `st.session_state.messages`. -/
structure Message where
  role : Role
  content : String
deriving DecidableEq, Repr

/-- `needle.isPrefixOf hay` on character lists, written out explicitly. -/
def listIsPrefix : List Char → List Char → Bool
  | [], _ => true
  | _ :: _, [] => false
  | a :: as, b :: bs => a == b && listIsPrefix as bs

/-- Model of Python's substring test `needle in hay` on character lists:
true iff `needle` occurs contiguously in `hay`. -/
def listContainsSeq (needle : List Char) : List Char → Bool
  | [] => listIsPrefix needle []
  | c :: rest => listIsPrefix needle (c :: rest) || listContainsSeq needle rest

/-- Model of Python's `needle in hay` for strings. -/
def strContains (hay needle : String) : Bool :=
  listContainsSeq needle.data hay.data

/-- Model of Python's `str.strip()`: removes leading and trailing
whitespace characters. -/
def pyStrip (s : String) : String :=
  ⟨((s.data.dropWhile Char.isWhitespace).reverse.dropWhile Char.isWhitespace).reverse⟩

/-- The end-of-turn sentinel token checked by `stream_response`
(`"<|im_end|>" in content`, src/main.py line 45). -/
def sentinel : String := "<|im_end|>"

/-- One line of the streamed chat response body (`response.iter_lines()`).
`empty` is a falsy line skipped by `if chunk:`; `wellFormed content` is a
line whose JSON parse yields `{"message": {"content": content}}`;
`malformed` is a line on which `json.loads(chunk)["message"]["content"]`
raises. -/
inductive Chunk
  | empty
  | wellFormed (content : String)
  | malformed
deriving DecidableEq, Repr

/-- Errors that `stream_response` propagates: `upstream` for
`response.raise_for_status()` on a failure status, `malformedChunk` for a
chunk that does not parse as the expected JSON shape. -/
inductive StreamErr
  | upstream
  | malformedChunk
deriving DecidableEq, Repr

/-- The chunk loop of `stream_response` (src/main.py lines 33-50), starting
from accumulated text `acc`.  Returns the list of texts published to the UI
placeholder (`response_area.markdown(response_text)`, one entry per
accumulated chunk) together with the final outcome: the accumulated text on
normal exit or at the sentinel `break`, or an error on a malformed chunk. -/
def streamLoop (acc : String) : List Chunk → List String × Except StreamErr String
  | [] => ([], .ok acc)
  | .empty :: rest => streamLoop acc rest
  | .malformed :: _ => ([], .error .malformedChunk)
  | .wellFormed content :: rest =>
      if strContains content sentinel then
        ([], .ok acc)
      else
        let r := streamLoop (acc ++ content) rest
        ((acc ++ content) :: r.1, r.2)

/-- `stream_response` (src/main.py lines 17-50), with the upstream HTTP
response given explicitly as a success flag (`httpOk = false` makes
`response.raise_for_status()` raise) and the chunk list.  The model name
and message list are sent in the request body and do not affect the
modelled response.  Returns the published texts and the final outcome;
on success the accumulated text is returned stripped (`.strip()`). -/
def stream_response (model_name : String) (messages : List Message)
    (httpOk : Bool) (chunks : List Chunk) :
    List String × Except StreamErr String :=
  if httpOk then
    let r := streamLoop "" chunks
    (r.1, r.2.map pyStrip)
  else
    ([], .error .upstream)

/-- The orchestrator's turn outcome: the conversation history
(`st.session_state.messages`) after `handle_chat` finishes or its
exception escapes, the streaming-client invocations made (model name and
message list passed to `stream_response`), and the propagated exception,
if any. -/
structure TurnResult where
  conv : List Message
  calls : List (String × List Message)
  err : Option StreamErr
deriving DecidableEq, Repr

/-- `handle_chat` (src/main.py lines 81-102), with the conversation passed
explicitly and the upstream chat response given as `(httpOk, chunks)`.
Empty input returns immediately (`if not user_input: return`); otherwise
the user message is appended, `stream_response "my-chatbot"` is invoked on
the full history, and on success the assistant message holding its return
value is appended.  If `stream_response` raises, the exception propagates
with the user message already appended. -/
def handle_chat (conv : List Message) (user_input : String)
    (httpOk : Bool) (chunks : List Chunk) : TurnResult :=
  if user_input = "" then
    ⟨conv, [], none⟩
  else
    let conv1 := conv ++ [⟨.user, user_input⟩]
    match (stream_response "my-chatbot" conv1 httpOk chunks).2 with
    | .error e => ⟨conv1, [("my-chatbot", conv1)], some e⟩
    | .ok response_text =>
        ⟨conv1 ++ [⟨.assistant, response_text⟩], [("my-chatbot", conv1)], none⟩

/-- Error raised by Python list indexing (`[0]` on an empty list) in
`transcribe_audio`. -/
inductive TranscribeErr
  | indexError
deriving DecidableEq, Repr

/-- One entry of the `alternatives` list in a Deepgram response body:
a dictionary that may or may not have a `transcript` key. -/
structure DgAlternative where
  transcript : Option String
deriving DecidableEq, Repr

/-- One entry of the `channels` list: a dictionary that may or may not
have an `alternatives` key. -/
structure DgChannel where
  alternatives : Option (List DgAlternative)
deriving DecidableEq, Repr

/-- The value of the `results` key: a dictionary that may or may not have
a `channels` key. -/
structure DgResults where
  channels : Option (List DgChannel)
deriving DecidableEq, Repr

/-- A parsed Deepgram response JSON body: a dictionary that may or may not
have a `results` key. -/
structure DgBody where
  results : Option DgResults
deriving DecidableEq, Repr

/-- Python `list[0]`: the head on a non-empty list, an `IndexError`
on an empty one. -/
def pyIndex0 : List α → Except TranscribeErr α
  | [] => .error .indexError
  | a :: _ => .ok a

/-- The outcome of `transcribe_audio`: its return value or propagated
exception, and the user-visible error notifications issued via
`st.error`. -/
structure TranscribeResult where
  result : Except TranscribeErr String
  notifications : List String
deriving Repr

/-- `transcribe_audio` (src/main.py lines 53-78), with the upstream HTTP
response given explicitly as a status code and a parsed JSON body.  On
status 200 it evaluates
`body.get("results", {}).get("channels", [{}])[0].get("alternatives", [{}])[0].get("transcript", "").strip()`:
each missing key defaults (`{}` / `[{}]` / `""`), but `[0]` on a
present-but-empty list raises `IndexError`.  On any other status it calls
`st.error` once and returns `""`. -/
def transcribe_audio (status_code : Nat) (body : DgBody) : TranscribeResult :=
  if status_code = 200 then
    let channels := (body.results.getD ⟨none⟩).channels.getD [⟨none⟩]
    match pyIndex0 channels with
    | .error e => ⟨.error e, []⟩
    | .ok channel0 =>
        let alternatives := channel0.alternatives.getD [⟨none⟩]
        match pyIndex0 alternatives with
        | .error e => ⟨.error e, []⟩
        | .ok alternative0 =>
            ⟨.ok (pyStrip (alternative0.transcript.getD "")), []⟩
  else
    ⟨.ok "", ["Error transcribing audio"]⟩

/-- A key on the transcript path `results.channels[0].alternatives[0].transcript`
is missing at some level of the body, in a place the traversal reaches:
`results` absent, or `channels` absent, or `alternatives` absent from the
first channel, or `transcript` absent from the first alternative. -/
def dgPathMissing (body : DgBody) : Prop :=
  body.results = none ∨
  ∃ r, body.results = some r ∧
    (r.channels = none ∨
     ∃ c rest, r.channels = some (c :: rest) ∧
       (c.alternatives = none ∨
        ∃ a arest, c.alternatives = some (a :: arest) ∧ a.transcript = none))

/-- Both `[0]` index accesses in `transcribe_audio` hit a non-empty list:
the channels list reached (after defaulting) is non-empty and the
alternatives list reached from its first element (after defaulting) is
non-empty. -/
def dgIndexSafe (body : DgBody) : Bool :=
  match (body.results.getD ⟨none⟩).channels.getD [⟨none⟩] with
  | [] => false
  | c :: _ => !(c.alternatives.getD [⟨none⟩]).isEmpty

/-! ## Helper lemmas -/

/-- The UI snapshot sequence a clean run of contents publishes when started
from accumulated text `acc`: each snapshot appends the next content to the
previous snapshot. -/
def snapshots (acc : String) : List String → List String
  | [] => []
  | s :: rest => (acc ++ s) :: snapshots (acc ++ s) rest

/-- A chunk whose content holds the sentinel makes the loop `break`: the
whole stream from that chunk on is discarded, whatever follows it. -/
theorem streamLoop_sentinel {c : String} (hc : strContains c sentinel = true) :
    ∀ (pre : List Chunk) (acc : String) (post : List Chunk),
    streamLoop acc (pre ++ .wellFormed c :: post) = streamLoop acc pre := by
  intro pre
  induction pre with
  | nil =>
      intro acc post
      simp [streamLoop, hc]
  | cons x rest ih =>
      intro acc post
      cases x with
      | empty => simpa [streamLoop] using ih acc post
      | malformed => simp [streamLoop]
      | wellFormed s =>
          cases hs : strContains s sentinel with
          | true => simp [streamLoop, hs]
          | false => simp [streamLoop, hs, ih]

/-- A run over well-formed, sentinel-free contents publishes exactly the
accumulated snapshots and ends with the full accumulated text. -/
theorem streamLoop_clean (contents : List String) :
    ∀ acc, (∀ s ∈ contents, strContains s sentinel = false) →
    streamLoop acc (contents.map .wellFormed)
      = (snapshots acc contents, .ok (contents.foldl (· ++ ·) acc)) := by
  induction contents with
  | nil => intro acc _; simp [streamLoop, snapshots]
  | cons s rest ih =>
      intro acc h
      have hs : strContains s sentinel = false := h s (by simp)
      have hrest : ∀ t ∈ rest, strContains t sentinel = false :=
        fun t ht => h t (by simp [ht])
      simp [streamLoop, hs, snapshots, ih (acc ++ s) hrest]

/-- A malformed chunk after a clean run propagates `MalformedChunkError`,
keeping the snapshots already published. -/
theorem streamLoop_malformed (contents : List String) :
    ∀ acc post, (∀ s ∈ contents, strContains s sentinel = false) →
    streamLoop acc (contents.map .wellFormed ++ .malformed :: post)
      = (snapshots acc contents, .error .malformedChunk) := by
  induction contents with
  | nil => intro acc post _; simp [streamLoop, snapshots]
  | cons s rest ih =>
      intro acc post h
      have hs : strContains s sentinel = false := h s (by simp)
      have hrest : ∀ t ∈ rest, strContains t sentinel = false :=
        fun t ht => h t (by simp [ht])
      simp [streamLoop, hs, snapshots, ih (acc ++ s) post hrest]

/-- Every text the loop publishes extends the accumulated text it started
from. -/
theorem streamLoop_published_extends (chunks : List Chunk) :
    ∀ acc p, p ∈ (streamLoop acc chunks).1 → acc.data <+: p.data := by
  induction chunks with
  | nil => intro acc p hp; simp [streamLoop] at hp
  | cons x rest ih =>
      intro acc p hp
      cases x with
      | empty =>
          simp only [streamLoop] at hp
          exact ih acc p hp
      | malformed => simp [streamLoop] at hp
      | wellFormed s =>
          cases hs : strContains s sentinel with
          | true => simp [streamLoop, hs] at hp
          | false =>
              simp only [streamLoop, hs] at hp
              simp at hp
              rcases hp with hp | hp
              · exact hp ▸ ⟨s.data, by simp⟩
              · rcases ih (acc ++ s) p hp with ⟨t, ht⟩
                exact ⟨s.data ++ t, by simpa using ht⟩

/-- The published texts form a chain in which each one extends the
previous. -/
theorem streamLoop_published_chain (chunks : List Chunk) :
    ∀ acc, List.Chain' (fun a b => a.data <+: b.data) (streamLoop acc chunks).1 := by
  induction chunks with
  | nil => intro acc; simp [streamLoop]
  | cons x rest ih =>
      intro acc
      cases x with
      | empty => simpa [streamLoop] using ih acc
      | malformed => simp [streamLoop]
      | wellFormed s =>
          cases hs : strContains s sentinel with
          | true => simp [streamLoop, hs]
          | false =>
              simp only [streamLoop, hs]
              refine (List.chain'_cons').2 ⟨fun y hy => ?_, ih (acc ++ s)⟩
              exact streamLoop_published_extends rest (acc ++ s) y
                (List.mem_of_mem_head? hy)

/-! ## Claim theorems: streaming and orchestration -/

/-- Claim C1: for every non-empty `userInput`, `handle_chat` appends
exactly one user message `{role: user, content: userInput}` to the
conversation before invoking the streaming client, invokes the streaming
client with model identifier `"my-chatbot"` and the full conversation
including that just-appended user turn, and appends exactly one assistant
message whose content is the streaming client's return value after it
completes successfully. -/
theorem handle_chat_nonempty_turn (conv : List Message) (user_input : String)
    (httpOk : Bool) (chunks : List Chunk) (h : user_input ≠ "") :
    (handle_chat conv user_input httpOk chunks).calls
      = [("my-chatbot", conv ++ [⟨.user, user_input⟩])] ∧
    ∀ t, (stream_response "my-chatbot" (conv ++ [⟨.user, user_input⟩])
            httpOk chunks).2 = .ok t →
      (handle_chat conv user_input httpOk chunks).conv
        = conv ++ [⟨.user, user_input⟩, ⟨.assistant, t⟩] := by
  constructor
  · cases hr : (stream_response "my-chatbot" (conv ++ [⟨.user, user_input⟩])
        httpOk chunks).2 with
    | error e => simp [handle_chat, h, hr]
    | ok t => simp [handle_chat, h, hr]
  · intro t ht
    simp [handle_chat, h, ht]

/-- Claim C1, witnessed on the end-to-end scenario: input `"Hi"` against
the stream `"Hel"`, `"lo!"`, `"<|im_end|>"`. -/
theorem handle_chat_nonempty_turn_witness :
    (handle_chat [] "Hi" true
        [.wellFormed "Hel", .wellFormed "lo!", .wellFormed "<|im_end|>"]).calls
      = [("my-chatbot", [⟨.user, "Hi"⟩])] ∧
    (handle_chat [] "Hi" true
        [.wellFormed "Hel", .wellFormed "lo!", .wellFormed "<|im_end|>"]).conv
      = [⟨.user, "Hi"⟩, ⟨.assistant, "Hello!"⟩] :=
  ⟨(handle_chat_nonempty_turn [] "Hi" true
      [.wellFormed "Hel", .wellFormed "lo!", .wellFormed "<|im_end|>"]
      (by decide)).1,
   (handle_chat_nonempty_turn [] "Hi" true
      [.wellFormed "Hel", .wellFormed "lo!", .wellFormed "<|im_end|>"]
      (by decide)).2 "Hello!" rfl⟩

/-- Claim C2: `stream_response` stops accumulating as soon as a chunk's
content contains the end-of-turn sentinel `"<|im_end|>"` and returns the
accumulated text with leading and trailing whitespace trimmed; in
particular, on the chunk stream `"Hel"`, `"lo!"`, `"<|im_end|>"` it
returns `"Hello!"`. -/
theorem stream_response_sentinel_stop_and_trim :
    (∀ (model_name : String) (messages : List Message) (contents : List String)
        (c : String) (post : List Chunk),
      (∀ s ∈ contents, strContains s sentinel = false) →
      strContains c sentinel = true →
      (stream_response model_name messages true
          (contents.map .wellFormed ++ .wellFormed c :: post)).2
        = .ok (pyStrip (String.join contents))) ∧
    stream_response "my-chatbot" [] true
        [.wellFormed "Hel", .wellFormed "lo!", .wellFormed "<|im_end|>"]
      = (["Hel", "Hello!"], .ok "Hello!") := by
  constructor
  · intro mn msgs contents c post hclean hc
    simp [stream_response, streamLoop_sentinel hc,
      streamLoop_clean contents "" hclean, String.join, Except.map]
  · rfl

/-- Claim C2, witnessed: a clean prelude `"He"`, `" llo "` followed by a
sentinel chunk yields the stripped concatenation `"llo"`. -/
theorem stream_response_sentinel_stop_and_trim_witness :
    (stream_response "my-chatbot" [] true
        ([" llo "].map .wellFormed ++ .wellFormed "<|im_end|>" :: [])).2
      = .ok "llo" :=
  (stream_response_sentinel_stop_and_trim).1 "my-chatbot" [] [" llo "]
    "<|im_end|>" [] (by decide) (by decide)

/-- Claim C3: for every sequence of well-formed chunks, the texts
published to the UI placeholder by `stream_response` are
prefix-monotonic — each published text extends the previous one by
appending that chunk's content (the snapshots of the accumulation) — and
no further text is published once a chunk's content contains the
end-of-turn sentinel. -/
theorem stream_response_published_monotone :
    (∀ (model_name : String) (messages : List Message) (httpOk : Bool)
        (chunks : List Chunk),
      List.Chain' (fun a b => a.data <+: b.data)
        (stream_response model_name messages httpOk chunks).1) ∧
    (∀ (model_name : String) (messages : List Message)
        (contents : List String),
      (∀ s ∈ contents, strContains s sentinel = false) →
      (stream_response model_name messages true (contents.map .wellFormed)).1
        = snapshots "" contents) ∧
    (∀ (model_name : String) (messages : List Message) (pre : List Chunk)
        (c : String) (post : List Chunk),
      strContains c sentinel = true →
      (stream_response model_name messages true
          (pre ++ .wellFormed c :: post)).1
        = (stream_response model_name messages true pre).1) := by
  refine ⟨?_, ?_, ?_⟩
  · intro mn msgs httpOk chunks
    cases httpOk with
    | false => simp [stream_response]
    | true => simpa [stream_response] using streamLoop_published_chain chunks ""
  · intro mn msgs contents h
    simp [stream_response, streamLoop_clean contents "" h]
  · intro mn msgs pre c post hc
    simp [stream_response, streamLoop_sentinel hc]

/-- Claim C3, witnessed on concrete streams: the published texts of the
`"Hel"`, `"lo!"`, `"<|im_end|>"` stream form a monotone chain and equal
the accumulation snapshots, and appending chunks after a sentinel chunk
publishes nothing further. -/
theorem stream_response_published_monotone_witness :
    List.Chain' (fun a b => a.data <+: b.data)
      (stream_response "my-chatbot" [] true
        [.wellFormed "Hel", .wellFormed "lo!", .wellFormed "<|im_end|>"]).1 ∧
    (stream_response "my-chatbot" [] true
        (["Hel", "lo!"].map .wellFormed)).1 = snapshots "" ["Hel", "lo!"] ∧
    (stream_response "my-chatbot" [] true
        ([.wellFormed "Hel"] ++ .wellFormed "<|im_end|>"
          :: [.wellFormed "XX"])).1
      = (stream_response "my-chatbot" [] true [.wellFormed "Hel"]).1 :=
  ⟨(stream_response_published_monotone).1 "my-chatbot" [] true
      [.wellFormed "Hel", .wellFormed "lo!", .wellFormed "<|im_end|>"],
   (stream_response_published_monotone).2.1 "my-chatbot" [] ["Hel", "lo!"]
      (by decide),
   (stream_response_published_monotone).2.2 "my-chatbot" [] [.wellFormed "Hel"]
      "<|im_end|>" [.wellFormed "XX"] (by decide)⟩

/-- Claim C4: chat-path errors propagate uncaught and perform no
rollback — on an HTTP failure status `stream_response` raises
`UpstreamError` immediately with nothing accumulated or published; on a
malformed chunk it raises `MalformedChunkError` with no recovery; and in
either case `handle_chat` appends no assistant message while the
already-appended user message remains in the conversation. -/
theorem chat_errors_propagate_without_rollback :
    (∀ (model_name : String) (messages : List Message) (chunks : List Chunk),
      stream_response model_name messages false chunks
        = ([], .error .upstream)) ∧
    (∀ (model_name : String) (messages : List Message)
        (contents : List String) (post : List Chunk),
      (∀ s ∈ contents, strContains s sentinel = false) →
      stream_response model_name messages true
          (contents.map .wellFormed ++ .malformed :: post)
        = (snapshots "" contents, .error .malformedChunk)) ∧
    (∀ (conv : List Message) (user_input : String) (httpOk : Bool)
        (chunks : List Chunk) (e : StreamErr),
      user_input ≠ "" →
      (stream_response "my-chatbot" (conv ++ [⟨.user, user_input⟩])
          httpOk chunks).2 = .error e →
      handle_chat conv user_input httpOk chunks
        = ⟨conv ++ [⟨.user, user_input⟩],
           [("my-chatbot", conv ++ [⟨.user, user_input⟩])], some e⟩) := by
  refine ⟨?_, ?_, ?_⟩
  · intro mn msgs chunks
    simp [stream_response]
  · intro mn msgs contents post h
    simp [stream_response, streamLoop_malformed contents "" post h, Except.map]
  · intro conv user_input httpOk chunks e h he
    simp [handle_chat, h, he]

/-- Claim C4, witnessed: an HTTP failure raises `upstream` with nothing
published, a malformed second chunk raises `malformedChunk` keeping the
first snapshot, and a failing turn leaves exactly the orphaned user
message in the conversation. -/
theorem chat_errors_propagate_without_rollback_witness :
    stream_response "my-chatbot" [] false [.wellFormed "Hel"]
      = ([], .error .upstream) ∧
    stream_response "my-chatbot" [] true [.wellFormed "He", .malformed]
      = (["He"], .error .malformedChunk) ∧
    handle_chat [] "Hi" false []
      = ⟨[⟨.user, "Hi"⟩], [("my-chatbot", [⟨.user, "Hi"⟩])], some .upstream⟩ :=
  ⟨(chat_errors_propagate_without_rollback).1 "my-chatbot" [] [.wellFormed "Hel"],
   (chat_errors_propagate_without_rollback).2.1 "my-chatbot" [] ["He"] []
      (by decide),
   (chat_errors_propagate_without_rollback).2.2 [] "Hi" false [] .upstream
      (by decide) rfl⟩

/-- Claim C7: for empty `userInput`, `handle_chat` leaves the conversation
unchanged and never invokes the streaming client. -/
theorem handle_chat_empty_input_noop (conv : List Message) (httpOk : Bool)
    (chunks : List Chunk) :
    handle_chat conv "" httpOk chunks = ⟨conv, [], none⟩ := by
  simp [handle_chat]

/-- Claim C8: the conversation is append-only and its messages are
immutable — `handle_chat`, the orchestrator's only operation on the
history, always returns a conversation of which the input conversation is
an unchanged initial segment, so the role and content of every message
already present are untouched. -/
theorem handle_chat_history_append_only (conv : List Message)
    (user_input : String) (httpOk : Bool) (chunks : List Chunk) :
    conv <+: (handle_chat conv user_input httpOk chunks).conv := by
  by_cases h : user_input = ""
  · simp [handle_chat, h]
  · cases hr : (stream_response "my-chatbot" (conv ++ [⟨.user, user_input⟩])
        httpOk chunks).2 with
    | error e =>
        simp only [handle_chat, h, if_false, hr]
        exact ⟨[⟨.user, user_input⟩], rfl⟩
    | ok t =>
        simp only [handle_chat, h, if_false, hr]
        exact ⟨[⟨.user, user_input⟩, ⟨.assistant, t⟩], by simp⟩

/-- Claim C9: when the end-of-turn sentinel appears in a chunk's content
together with other text, the entire chunk content is discarded — the
stream from that chunk on contributes nothing to the accumulated text or
the published texts; e.g. the chunk `"ABC<|im_end|>XYZ"` contributes
neither `"ABC"` nor `"XYZ"`. -/
theorem sentinel_chunk_content_discarded :
    (∀ (acc : String) (pre : List Chunk) (c : String) (post : List Chunk),
      strContains c sentinel = true →
      streamLoop acc (pre ++ .wellFormed c :: post) = streamLoop acc pre) ∧
    stream_response "my-chatbot" [] true
        [.wellFormed "Hel", .wellFormed "ABC<|im_end|>XYZ", .wellFormed "!!"]
      = (["Hel"], .ok "Hel") := by
  constructor
  · intro acc pre c post hc
    exact streamLoop_sentinel hc pre acc post
  · rfl

/-- Claim C9, witnessed: the chunk `"B<|im_end|>"` and everything after it
leave the loop's outcome exactly as if the stream ended before them. -/
theorem sentinel_chunk_content_discarded_witness :
    streamLoop "" ([.wellFormed "A"] ++ .wellFormed "B<|im_end|>"
        :: [.wellFormed "C"])
      = streamLoop "" [.wellFormed "A"] :=
  (sentinel_chunk_content_discarded).1 "" [.wellFormed "A"] "B<|im_end|>"
    [.wellFormed "C"] (by decide)

/-! ## Claim theorems: transcription -/

/-- Claim C5: for every HTTP 200 response whose JSON body contains the
full path `results.channels[0].alternatives[0].transcript`,
`transcribe_audio` returns that transcript with surrounding whitespace
trimmed; for every 200 response in which a key on that path is missing at
any level, it returns the empty string. -/
theorem transcribe_audio_path_traversal :
    (∀ (t : String) (altRest : List DgAlternative) (chanRest : List DgChannel),
      transcribe_audio 200
          ⟨some ⟨some (⟨some (⟨some t⟩ :: altRest)⟩ :: chanRest)⟩⟩
        = ⟨.ok (pyStrip t), []⟩) ∧
    (∀ body : DgBody, dgPathMissing body →
      transcribe_audio 200 body = ⟨.ok "", []⟩) := by
  constructor
  · intro t altRest chanRest
    rfl
  · intro body h
    rcases h with h | ⟨r, hr, h⟩
    · simp [transcribe_audio, h, pyIndex0, pyStrip]
    · rcases h with h | ⟨c, rest, hcs, h⟩
      · simp [transcribe_audio, hr, h, pyIndex0, pyStrip]
      · rcases h with h | ⟨a, arest, has, h⟩
        · simp [transcribe_audio, hr, hcs, h, pyIndex0, pyStrip]
        · simp [transcribe_audio, hr, hcs, has, h, pyIndex0, pyStrip]

/-- Claim C5, witnessed: a full path holding `" hello world "` yields
`"hello world"`, and a body with no `results` key yields `""`. -/
theorem transcribe_audio_path_traversal_witness :
    transcribe_audio 200 ⟨some ⟨some [⟨some [⟨some " hello world "⟩]⟩]⟩⟩
      = ⟨.ok "hello world", []⟩ ∧
    transcribe_audio 200 ⟨none⟩ = ⟨.ok "", []⟩ :=
  ⟨(transcribe_audio_path_traversal).1 " hello world " [] [],
   (transcribe_audio_path_traversal).2 ⟨none⟩ (Or.inl rfl)⟩

/-- Claim C6, counterexample: `transcribe_audio` does not return a text
value for every upstream response — on the 200 response whose body is
`{results: {channels: []}}` it propagates an `IndexError` instead of
returning text. -/
theorem transcribe_audio_total_cex :
    (transcribe_audio 200 ⟨some ⟨some []⟩⟩).result
      = .error .indexError := rfl

/-- Claim C6, as amended: `transcribe_audio` never fails the caller on a
non-200 response — it returns the empty string and triggers the
user-visible error notification exactly once, propagating no exception —
and on a 200 response it returns a text value with no notification
whenever the two `[0]` accesses hit non-empty lists. -/
theorem transcribe_audio_error_policy :
    (∀ (status_code : Nat) (body : DgBody), status_code ≠ 200 →
      transcribe_audio status_code body
        = ⟨.ok "", ["Error transcribing audio"]⟩) ∧
    (∀ body : DgBody, dgIndexSafe body = true →
      ∃ t, transcribe_audio 200 body = ⟨.ok t, []⟩) := by
  constructor
  · intro status_code body h
    simp [transcribe_audio, h]
  · intro body h
    unfold dgIndexSafe at h
    cases hcs : (body.results.getD ⟨none⟩).channels.getD [⟨none⟩] with
    | nil => rw [hcs] at h; simp at h
    | cons c cs =>
        rw [hcs] at h
        simp at h
        cases has : c.alternatives.getD [⟨none⟩] with
        | nil => rw [has] at h; simp at h
        | cons a as =>
            exact ⟨pyStrip (a.transcript.getD ""),
              by simp [transcribe_audio, hcs, has, pyIndex0]⟩

/-- Claim C6 (amended), witnessed: a 500 response degrades to `""` with
one notification, and a well-populated 200 response returns a text. -/
theorem transcribe_audio_error_policy_witness :
    transcribe_audio 500 ⟨none⟩ = ⟨.ok "", ["Error transcribing audio"]⟩ ∧
    ∃ t, transcribe_audio 200 ⟨some ⟨some [⟨some [⟨some "hi"⟩]⟩]⟩⟩
      = ⟨.ok t, []⟩ :=
  ⟨(transcribe_audio_error_policy).1 500 ⟨none⟩ (by decide),
   (transcribe_audio_error_policy).2 ⟨some ⟨some [⟨some [⟨some "hi"⟩]⟩]⟩⟩
     (by decide)⟩

/-- Claim C10: for an HTTP 200 response whose body binds `channels` to an
empty list, or binds `alternatives` of the first channel to an empty
list, `transcribe_audio` raises an out-of-bounds indexing error rather
than returning a value — the `[0]` accesses are guarded only by defaults
for missing keys, not for present-but-empty lists. -/
theorem transcribe_audio_empty_list_raises :
    (∀ (body : DgBody) (r : DgResults),
      body.results = some r → r.channels = some [] →
      transcribe_audio 200 body = ⟨.error .indexError, []⟩) ∧
    (∀ (body : DgBody) (r : DgResults) (c : DgChannel)
        (rest : List DgChannel),
      body.results = some r → r.channels = some (c :: rest) →
      c.alternatives = some [] →
      transcribe_audio 200 body = ⟨.error .indexError, []⟩) := by
  constructor
  · intro body r hr hcs
    simp [transcribe_audio, hr, hcs, pyIndex0]
  · intro body r c rest hr hcs has
    simp [transcribe_audio, hr, hcs, has, pyIndex0]

/-- Claim C10, witnessed: `{results: {channels: []}}` and
`{results: {channels: [{alternatives: []}]}}` both raise. -/
theorem transcribe_audio_empty_list_raises_witness :
    transcribe_audio 200 ⟨some ⟨some []⟩⟩ = ⟨.error .indexError, []⟩ ∧
    transcribe_audio 200 ⟨some ⟨some [⟨some []⟩]⟩⟩
      = ⟨.error .indexError, []⟩ :=
  ⟨(transcribe_audio_empty_list_raises).1 ⟨some ⟨some []⟩⟩ ⟨some []⟩ rfl rfl,
   (transcribe_audio_empty_list_raises).2 ⟨some ⟨some [⟨some []⟩]⟩⟩
     ⟨some [⟨some []⟩]⟩ ⟨some []⟩ [] rfl rfl rfl⟩
